import Mathlib

/-!
Verification of the physiCCs simulation-and-mapping engine.

The Python sources (gravity.py, particle.py, pendulum.py, midi_physics_base.py)
are shallowly embedded over ℚ: every Python float computation in the physics
and mapping code is exact decimal arithmetic on the listed constants, so ℚ is
the idealized-real semantics of the code.  Two library functions have no exact
rational counterpart and are abstracted:

* `math.sqrt(dx*dx + dy*dy)` in `resolve_particle_collision` is passed in as a
  parameter `dist`, characterized in theorems by `dist * dist = dx^2 + dy^2`
  together with `0 ≤ dist` (or `0 < dist`);
* `math.sin` / `math.cos` in pendulum.py are passed in as function parameters
  `sinF cosF : ℚ → ℚ` applied to the stored angle.

The Python `int(...)` conversion truncates toward zero; it is embedded as
`pyInt`.  The Python `max(a, min(b, x))` clamping is embedded as `clampInt` /
`max`/`min` on ℚ.  Rendering-only bookkeeping (trail points, drawing) is
omitted.
-/

namespace PhysiCCs

/-- Python `int(q)`: truncation toward zero. -/
def pyInt (q : ℚ) : ℤ := if 0 ≤ q then ⌊q⌋ else ⌈q⌉

/-- Python `max(lo, min(hi, n))` on integers. -/
def clampInt (lo hi n : ℤ) : ℤ := max lo (min hi n)

/-! ## Gravity module (gravity.py) -/

/-- One CC controller of `GravityModule.controllers`: the mutable
`{"value": ..., "velocity": ...}` record (the fixed `cc`/`name` fields are
configuration, not simulation state). -/
structure GravityChannel where
  value : ℚ
  velocity : ℚ
  deriving DecidableEq

/-- Embedding of `GravityModule.get_gravity_force` (gravity.py lines 73-78). -/
def getGravityForce (g : ℚ) : ℚ :=
  if g = 0 then 0 else g * g * (4 / 5)

/-- The body of the per-controller loop of `GravityModule.update`
(gravity.py lines 90-115), acting on one channel with gravity strength `g`.
The MIDI send is output, not state. -/
def gravityChannelTick (g : ℚ) (c : GravityChannel) : GravityChannel :=
  let force := getGravityForce g
  let d := c.value - 64
  if 1 / 10 < |d| then
    let vel := (c.velocity + -d * force * (1 / 10)) * (49 / 50)
    let v := max 0 (min 127 (c.value + vel))
    ⟨v, vel⟩
  else
    if 0 < force then ⟨64, 0⟩ else c

/-- The mutable state of `GravityModule` relevant to physics and dragging. -/
structure GravityState where
  controllers : List GravityChannel
  gravityStrength : ℚ
  draggingController : Option ℕ
  mouseOffset : ℚ
  deriving DecidableEq

/-- Embedding of `GravityModule.update` (gravity.py lines 86-115): integrates every
controller; the loop contains no check of `dragging_controller`. -/
def gravityUpdate (st : GravityState) : GravityState :=
  { st with controllers := st.controllers.map (gravityChannelTick st.gravityStrength) }

/-- Embedding of `self.controller_y` (gravity.py line 42). -/
def controllerY : ℚ := 200

/-- Embedding of `self.controller_height` (gravity.py line 39). -/
def controllerHeight : ℚ := 300

/-- Handle position of controller slider `i` for a channel value
(gravity.py lines 134-135). -/
def controllerHandleY (value : ℚ) : ℚ :=
  controllerY + controllerHeight - value / 127 * controllerHeight

/-- The `MOUSEBUTTONDOWN` branch of `GravityModule.handle_mouse_events` when
the click hits controller slider `i` (gravity.py lines 131-137): it records
the dragged index and the pointer offset from the handle.  The channel list
itself is untouched — in particular no velocity is zeroed at press time. -/
def gravityPressController (i : ℕ) (mouseY : ℚ) (st : GravityState) : GravityState :=
  let value := (st.controllers.getD i ⟨0, 0⟩).value
  { st with draggingController := some i,
            mouseOffset := mouseY - controllerHandleY value }

/-- The normalized slider position computed by the `MOUSEMOTION` branch while
a controller is dragged (gravity.py lines 160-163). -/
def dragNormalized (offset mouseY : ℚ) : ℚ :=
  max 0 (min 1 (1 - (mouseY - offset - controllerY) / controllerHeight))

/-- The value written to the dragged channel by the `MOUSEMOTION` branch
(gravity.py line 164). -/
def gravityDragValue (offset mouseY : ℚ) : ℚ :=
  dragNormalized offset mouseY * 127

/-- Iterated `update` ticks of the gravity module on a single channel with
`gravity_strength = 1.0`, starting from `value = 127, velocity = 0`. -/
def gravityIter : ℕ → GravityChannel
  | 0 => ⟨127, 0⟩
  | n + 1 => gravityChannelTick 1 (gravityIter n)

/-- A concrete `GravityModule` state in which controller 0 is being dragged
(`dragging_controller = 0`), was just dragged to value 127 (the drag handler
set its velocity to 0), and gravity strength is the default 0.5. -/
def heldGravityState : GravityState :=
  ⟨[⟨127, 0⟩, ⟨64, 0⟩, ⟨64, 0⟩], 1 / 2, some 0, 0⟩

/-! ## Particle module (particle.py) -/

/-- One particle record of `ParticleModule` (the `cc_x`/`cc_y`/`color` fields
are configuration, not simulation state). -/
structure Particle where
  x : ℚ
  y : ℚ
  vx : ℚ
  vy : ℚ
  radius : ℚ
  deriving DecidableEq

/-- Embedding of `self.sim_width` (particle.py line 19). -/
def simWidth : ℚ := 400

/-- Embedding of `self.sim_height` (particle.py line 20). -/
def simHeight : ℚ := 400

/-- Embedding of `self.max_speed_multiplier` (particle.py line 48). -/
def maxSpeedMultiplier : ℚ := 3

/-- Embedding of `ParticleModule.get_speed_multiplier` (particle.py lines 131-133). -/
def getSpeedMultiplier (temperature : ℚ) : ℚ :=
  1 + temperature * (maxSpeedMultiplier - 1)

/-- Embedding of `ParticleModule.update_particle` (particle.py lines 180-201): integrate
position by `velocity * speed_multiplier`, then the two sequential
`if/elif` wall-collision blocks per axis. -/
def updateParticle (temperature : ℚ) (p : Particle) : Particle :=
  let m := getSpeedMultiplier temperature
  let x := p.x + p.vx * m
  let y := p.y + p.vy * m
  let x2 := if x ≤ p.radius then p.radius
            else if simWidth - p.radius ≤ x then simWidth - p.radius else x
  let vx2 := if x ≤ p.radius then |p.vx|
             else if simWidth - p.radius ≤ x then -|p.vx| else p.vx
  let y2 := if y ≤ p.radius then p.radius
            else if simHeight - p.radius ≤ y then simHeight - p.radius else y
  let vy2 := if y ≤ p.radius then |p.vy|
             else if simHeight - p.radius ≤ y then -|p.vy| else p.vy
  ⟨x2, y2, vx2, vy2, p.radius⟩

/-- Embedding of `ParticleModule.resolve_particle_collision` (particle.py lines 142-178).
`math.sqrt(dx*dx + dy*dy)` is abstracted as the parameter `dist`; theorems
characterize it by `dist * dist = dx^2 + dy^2` and its sign. -/
def resolveParticleCollision (p1 p2 : Particle) (dist : ℚ) : Particle × Particle :=
  let dx := p1.x - p2.x
  let dy := p1.y - p2.y
  if dist = 0 then (p1, p2)
  else
    let nx := dx / dist
    let ny := dy / dist
    let overlap := p1.radius + p2.radius - dist
    let q1 := { p1 with x := p1.x + nx * overlap * (1 / 2), y := p1.y + ny * overlap * (1 / 2) }
    let q2 := { p2 with x := p2.x - nx * overlap * (1 / 2), y := p2.y - ny * overlap * (1 / 2) }
    let rvx := p1.vx - p2.vx
    let rvy := p1.vy - p2.vy
    let speed := rvx * nx + rvy * ny
    if 0 < speed then (q1, q2)
    else
      ({ q1 with vx := q1.vx - speed * nx, vy := q1.vy - speed * ny },
       { q2 with vx := q2.vx + speed * nx, vy := q2.vy + speed * ny })

/-- The X control value computed by `ParticleModule.send_particle_midi`
(particle.py lines 203-215). -/
def particleMidiX (p : Particle) : ℤ :=
  clampInt 0 127 (pyInt (p.x / simWidth * 127))

/-- The Y control value computed by `ParticleModule.send_particle_midi`
(particle.py lines 203-215). -/
def particleMidiY (p : Particle) : ℤ :=
  clampInt 0 127 (pyInt (p.y / simHeight * 127))

/-! ## Pendulum module (pendulum.py) -/

/-- The mutable physics state of `PendulumModule`. -/
structure PendulumState where
  angle : ℚ
  angularVelocity : ℚ
  length : ℚ
  deriving DecidableEq

/-- Embedding of `self.pivot_x` (pendulum.py line 25). -/
def pendPivotX : ℚ := 400

/-- Embedding of `self.pivot_y` (pendulum.py line 26). -/
def pendPivotY : ℚ := 150

/-- Embedding of `self.gravity` (pendulum.py line 21). -/
def pendGravity : ℚ := 1 / 2

/-- Embedding of `self.damping` (pendulum.py line 22). -/
def pendDamping : ℚ := 999 / 1000

/-- Embedding of `PendulumModule.calculate_pendulum_position` (pendulum.py lines 103-107):
the bob position is recomputed from `angle` and `length` on every call, never
stored. -/
def calculatePendulumPosition (sinF cosF : ℚ → ℚ) (p : PendulumState) : ℚ × ℚ :=
  (pendPivotX + p.length * sinF p.angle, pendPivotY + p.length * cosF p.angle)

/-- Embedding of `PendulumModule.update_physics` (pendulum.py lines 109-117); the trail
bookkeeping of lines 119-125 is rendering only and omitted. -/
def updatePhysics (sinF : ℚ → ℚ) (p : PendulumState) : PendulumState :=
  let angularAcceleration := -(pendGravity / p.length) * sinF p.angle * (1 / 10)
  let av := (p.angularVelocity + angularAcceleration) * pendDamping
  { p with angularVelocity := av, angle := p.angle + av }

/-- The state part of `PendulumModule.update` (pendulum.py lines 152-156):
physics runs only when the bob is not being dragged. -/
def pendulumUpdate (sinF : ℚ → ℚ) (draggingPendulum : Bool) (p : PendulumState) :
    PendulumState :=
  if draggingPendulum then p else updatePhysics sinF p

/-- The CC branch of `PendulumModule.generate_midi_output`
(pendulum.py lines 131-140). -/
def pendulumCCValue (sinF cosF : ℚ → ℚ) (p : PendulumState) : ℤ :=
  let bobX := (calculatePendulumPosition sinF cosF p).1
  let swingRange := p.length * 2
  let relativeX := bobX - (pendPivotX - p.length)
  let normalized := relativeX / swingRange
  clampInt 0 127 (pyInt (normalized * 127))

/-- The pitch-bend branch of `PendulumModule.generate_midi_output`
(pendulum.py lines 142-150). -/
def pendulumPitchBend (sinF cosF : ℚ → ℚ) (p : PendulumState) : ℤ :=
  let bobX := (calculatePendulumPosition sinF cosF p).1
  let relativeX := bobX - pendPivotX
  let normalized := relativeX / p.length
  clampInt (-8192) 8191 (pyInt (normalized * 8192))

/-! ## Definitions written from the wording of the specification, for refinement
claims.  These follow spec.md §4.2, §4.4 and §4.6, not the source. -/

/-- Spec §4.2 spring-return tick as amended: `restoring = g² × 0.8`; outside
the deadzone integrate with damping 0.98 and clamp; inside the deadzone snap
to the center when `g > 0` and leave the channel untouched when `g = 0`. -/
def specSpringTick (g : ℚ) (c : GravityChannel) : GravityChannel :=
  let restoring := g * g * (4 / 5)
  if 1 / 10 < |c.value - 64| then
    let vel := (c.velocity + -(c.value - 64) * restoring * (1 / 10)) * (49 / 50)
    ⟨max 0 (min 127 (c.value + vel)), vel⟩
  else
    if 0 < g then ⟨64, 0⟩ else c

/-- Spec §4.6 `toControlValue` exactly as written: round to nearest. -/
def specToControlValue (x domainMin domainMax : ℚ) : ℤ :=
  clampInt 0 127 (round ((x - domainMin) / (domainMax - domainMin) * 127))

/-- Spec §4.6 `toPitchBend` exactly as written: round to nearest. -/
def specToPitchBend (norm : ℚ) : ℤ :=
  clampInt (-8192) 8191 (round (norm * 8192))

/-- Spec §4.6 `toControlValue` as amended: truncation toward zero in place of
rounding to nearest. -/
def specToControlValueTrunc (x domainMin domainMax : ℚ) : ℤ :=
  clampInt 0 127 (pyInt ((x - domainMin) / (domainMax - domainMin) * 127))

/-- Spec §4.6 `toPitchBend` as amended: truncation toward zero in place of
rounding to nearest. -/
def specToPitchBendTrunc (norm : ℚ) : ℤ :=
  clampInt (-8192) 8191 (pyInt (norm * 8192))

/-- Spec §4.4 angular dynamics, written from the spec sentence:
`angularAcceleration = −(gravity/armLength)×sin(angle)×0.1; angularVelocity +=
angularAcceleration; angularVelocity *= damping(0.999); angle +=
angularVelocity`. -/
def specAngularTick (sinF : ℚ → ℚ) (p : PendulumState) : PendulumState :=
  let angularAcceleration := -(pendGravity / p.length) * sinF p.angle * (1 / 10)
  let av := (p.angularVelocity + angularAcceleration) * (999 / 1000)
  { p with angularVelocity := av, angle := p.angle + av }

/-! ## Helper lemmas -/

theorem clampInt_bounds (lo hi n : ℤ) (h : lo ≤ hi) :
    lo ≤ clampInt lo hi n ∧ clampInt lo hi n ≤ hi :=
  ⟨le_max_left lo (min hi n), max_le h (min_le_left hi n)⟩

/-- Inside the deadzone with `g = 1`, the gravity tick snaps to the exact
center. -/
theorem gravityChannelTick_snap (c : GravityChannel) (h : |c.value - 64| ≤ 1 / 10) :
    gravityChannelTick 1 c = ⟨64, 0⟩ := by
  unfold gravityChannelTick getGravityForce
  rw [if_neg (not_lt.mpr h)]
  norm_num

/-! ## Claim theorems -/

/-- C2 counterexample: with `g = 0` and a channel outside the deadzone that
still carries velocity (`value = 100, velocity = 5`), one tick of
`GravityModule.update` moves the value to `104.9` — the channel is not left
undisturbed, contradicting the `g = 0` clause of the claim. -/
theorem spring_g0_disturbs_moving_channel :
    gravityChannelTick 0 ⟨100, 5⟩ = ⟨1049 / 10, 49 / 10⟩ ∧
    gravityChannelTick 0 ⟨100, 5⟩ ≠ ⟨100, 5⟩ := by
  constructor
  · decide!
  · decide!

/-- C2 (amended): for every `g ∈ [0,1]` and every channel state, the
spring-return tick of `GravityModule.update` behaves exactly as the spec
formula with `restoring = g² × 0.8`, damping `0.98`, deadzone `0.1` around
center `64` and clamping to `[0,127]`; inside the deadzone it snaps to the
center when `g > 0` and leaves the channel untouched when `g = 0`. -/
theorem spring_tick_matches_amended_spec (g : ℚ) (c : GravityChannel)
    (h0 : 0 ≤ g) (h1 : g ≤ 1) :
    gravityChannelTick g c = specSpringTick g c := by
  simp only [gravityChannelTick, specSpringTick, getGravityForce]
  by_cases hg : g = 0
  · subst hg
    norm_num
  · simp only [if_neg hg]
    have hgpos : 0 < g := lt_of_le_of_ne h0 (Ne.symm hg)
    have hfpos : (0 : ℚ) < g * g * (4 / 5) := by positivity
    by_cases hd : 1 / 10 < |c.value - 64|
    · simp only [if_pos hd]
    · simp only [if_neg hd, if_pos hfpos, if_pos hgpos]

/-- Witness for the C2 theorem at `g = 1/2`, `value = 100`, `velocity = 0`. -/
theorem spring_tick_matches_amended_spec_witness :
    0 ≤ (1 : ℚ) / 2 ∧ (1 : ℚ) / 2 ≤ 1 ∧
    gravityChannelTick (1 / 2) ⟨100, 0⟩ = specSpringTick (1 / 2) ⟨100, 0⟩ :=
  ⟨by norm_num, by norm_num,
    spring_tick_matches_amended_spec (1 / 2) ⟨100, 0⟩ (by norm_num) (by norm_num)⟩

/-- C3: for every particle position and every pendulum state, angle and arm
length (any `sinF`/`cosF` evaluation), the control-value mappings produce an
integer in `[0,127]` and the pitch-bend mapping an integer in
`[-8192,8191]`. -/
theorem mapping_outputs_bounded (p : Particle) (sinF cosF : ℚ → ℚ) (st : PendulumState) :
    (0 ≤ particleMidiX p ∧ particleMidiX p ≤ 127) ∧
    (0 ≤ particleMidiY p ∧ particleMidiY p ≤ 127) ∧
    (0 ≤ pendulumCCValue sinF cosF st ∧ pendulumCCValue sinF cosF st ≤ 127) ∧
    (-8192 ≤ pendulumPitchBend sinF cosF st ∧ pendulumPitchBend sinF cosF st ≤ 8191) :=
  ⟨clampInt_bounds 0 127 _ (by norm_num), clampInt_bounds 0 127 _ (by norm_num),
   clampInt_bounds 0 127 _ (by norm_num), clampInt_bounds (-8192) 8191 _ (by norm_num)⟩

/-- C4 counterexample: the code maps by truncation toward zero, not rounding
to nearest: at `x = 2` the particle X mapping yields `0` while the claimed
`clamp(round(x/400 × 127), 0, 127)` yields `1`; at `norm = 1/10000` the
pitch-bend mapping yields `0` while the claimed rounding formula yields
`1`. -/
theorem mapping_rounding_counterexample :
    particleMidiX ⟨2, 0, 0, 0, 15⟩ = 0 ∧ specToControlValue 2 0 simWidth = 1 ∧
    pendulumPitchBend (fun _ => 1 / 10000) (fun _ => 0) ⟨0, 0, 100⟩ = 0 ∧
    specToPitchBend (1 / 10000) = 1 := by
  refine ⟨?_, ?_, ?_, ?_⟩ <;> decide!

/-- C4 (amended): the control-value mappings equal
`clamp(trunc((x-domainMin)/(domainMax-domainMin) × 127), 0, 127)` and the
pitch-bend mapping equals `clamp(trunc(norm × 8192), -8192, 8191)`, where
`trunc` is truncation toward zero (Python `int()`), applied consistently in
both mappings. -/
theorem mappings_match_spec_trunc (p : Particle) (sinF cosF : ℚ → ℚ) (st : PendulumState) :
    particleMidiX p = specToControlValueTrunc p.x 0 simWidth ∧
    particleMidiY p = specToControlValueTrunc p.y 0 simHeight ∧
    pendulumCCValue sinF cosF st =
      specToControlValueTrunc (calculatePendulumPosition sinF cosF st).1
        (pendPivotX - st.length) (pendPivotX + st.length) ∧
    pendulumPitchBend sinF cosF st =
      specToPitchBendTrunc
        (((calculatePendulumPosition sinF cosF st).1 - pendPivotX) / st.length) := by
  refine ⟨?_, ?_, ?_, ?_⟩
  · simp only [particleMidiX, specToControlValueTrunc]
    refine congrArg (clampInt 0 127) (congrArg pyInt ?_)
    ring
  · simp only [particleMidiY, specToControlValueTrunc]
    refine congrArg (clampInt 0 127) (congrArg pyInt ?_)
    ring
  · simp only [pendulumCCValue, specToControlValueTrunc, calculatePendulumPosition]
    refine congrArg (clampInt 0 127) (congrArg pyInt ?_)
    ring
  · simp only [pendulumPitchBend, specToPitchBendTrunc, calculatePendulumPosition]

/-- C10: when the two particle centers coincide, `resolve_particle_collision`
returns without touching either particle (`math.sqrt` of the zero offset is
zero, and the `distance == 0` guard fires before any division). -/
theorem collision_zero_distance_skipped (p1 p2 : Particle) (dist : ℚ)
    (hx : p1.x = p2.x) (hy : p1.y = p2.y)
    (hdist : dist * dist = (p1.x - p2.x) ^ 2 + (p1.y - p2.y) ^ 2) :
    resolveParticleCollision p1 p2 dist = (p1, p2) := by
  have h0 : dist = 0 := by
    have hz : dist * dist = 0 := by rw [hdist, hx, hy]; ring
    exact mul_self_eq_zero.mp hz
  subst h0
  simp [resolveParticleCollision]

/-- Witness for C10 at two concrete coincident particles. -/
theorem collision_zero_distance_skipped_witness :
    resolveParticleCollision ⟨5, 5, 1, 2, 15⟩ ⟨5, 5, -1, 0, 15⟩ 0 =
      (⟨5, 5, 1, 2, 15⟩, ⟨5, 5, -1, 0, 15⟩) :=
  collision_zero_distance_skipped ⟨5, 5, 1, 2, 15⟩ ⟨5, 5, -1, 0, 15⟩ 0 rfl rfl (by norm_num)

/-- C5: for overlapping bodies with distinct centers (`0 < dist`, with `dist`
the square root of the squared center offset, and `nx, ny, s` the collision
normal and normal-projected relative speed), `resolve_particle_collision`
conserves the vector sum of the two velocities, leaves both velocities
unchanged unless the bodies are approaching (`s < 0`), and when they are
approaching exactly exchanges the normal components of the two
velocities. -/
theorem collision_impulse_exchange (p1 p2 : Particle) (dist nx ny s : ℚ)
    (hdpos : 0 < dist)
    (hdist : dist * dist = (p1.x - p2.x) ^ 2 + (p1.y - p2.y) ^ 2)
    (hnx : nx = (p1.x - p2.x) / dist) (hny : ny = (p1.y - p2.y) / dist)
    (hs : s = (p1.vx - p2.vx) * nx + (p1.vy - p2.vy) * ny) :
    ((resolveParticleCollision p1 p2 dist).1.vx + (resolveParticleCollision p1 p2 dist).2.vx
        = p1.vx + p2.vx ∧
     (resolveParticleCollision p1 p2 dist).1.vy + (resolveParticleCollision p1 p2 dist).2.vy
        = p1.vy + p2.vy) ∧
    (0 ≤ s →
      (resolveParticleCollision p1 p2 dist).1.vx = p1.vx ∧
      (resolveParticleCollision p1 p2 dist).1.vy = p1.vy ∧
      (resolveParticleCollision p1 p2 dist).2.vx = p2.vx ∧
      (resolveParticleCollision p1 p2 dist).2.vy = p2.vy) ∧
    (s < 0 →
      (resolveParticleCollision p1 p2 dist).1.vx * nx +
          (resolveParticleCollision p1 p2 dist).1.vy * ny
        = p2.vx * nx + p2.vy * ny ∧
      (resolveParticleCollision p1 p2 dist).2.vx * nx +
          (resolveParticleCollision p1 p2 dist).2.vy * ny
        = p1.vx * nx + p1.vy * ny) := by
  have hne : dist ≠ 0 := ne_of_gt hdpos
  have hn : nx * nx + ny * ny = 1 := by
    rw [hnx, hny, div_mul_div_comm, div_mul_div_comm, div_add_div_same]
    rw [show (p1.x - p2.x) * (p1.x - p2.x) + (p1.y - p2.y) * (p1.y - p2.y) = dist * dist by
      linear_combination -hdist]
    exact div_self (mul_ne_zero hne hne)
  simp only [resolveParticleCollision, if_neg hne]
  rw [← hnx, ← hny, ← hs]
  by_cases hsp : 0 < s
  · rw [if_pos hsp]
    exact ⟨⟨rfl, rfl⟩, fun _ => ⟨rfl, rfl, rfl, rfl⟩, fun habs => absurd hsp (not_lt.mpr habs.le)⟩
  · rw [if_neg hsp]
    dsimp only
    refine ⟨⟨by ring, by ring⟩, ?_, ?_⟩
    · intro h0s
      have hs0 : s = 0 := le_antisymm (not_lt.mp hsp) h0s
      rw [hs0]
      refine ⟨by ring, by ring, by ring, by ring⟩
    · intro _
      constructor
      · linear_combination -hs - s * hn
      · linear_combination hs + s * hn

/-- Witness for C5: a head-on collision along the x-axis with speeds `4` and
`0`; the theorem yields the exact swap of the normal speed components. -/
theorem collision_impulse_exchange_witness :
    (resolveParticleCollision ⟨10, 0, 0, 0, 6⟩ ⟨0, 0, 4, 0, 6⟩ 10).1.vx = 4 ∧
    (resolveParticleCollision ⟨10, 0, 0, 0, 6⟩ ⟨0, 0, 4, 0, 6⟩ 10).2.vx = 0 := by
  have h := (collision_impulse_exchange ⟨10, 0, 0, 0, 6⟩ ⟨0, 0, 4, 0, 6⟩ 10 1 0 (-4)
      (by norm_num) (by norm_num) (by norm_num) (by norm_num) (by norm_num)).2.2
      (by norm_num)
  simp only [mul_one, mul_zero, add_zero] at h
  exact h

/-- C6: whenever the per-axis position update of `update_particle` crosses
the wall band `[radius, boundary − radius]` from inside, the tick clamps the
position to the wall on that axis, flips the sign of the velocity component
on that axis keeping its magnitude, and leaves the other axis untouched (the
four conjuncts are the left, right, top and bottom walls). -/
theorem wall_reflection (temperature : ℚ) (p : Particle) (m x1 y1 : ℚ)
    (htemp : 0 ≤ temperature) (hr : p.radius < 200)
    (hm : m = getSpeedMultiplier temperature)
    (hx1 : x1 = p.x + p.vx * m) (hy1 : y1 = p.y + p.vy * m) :
    (p.radius ≤ p.x → x1 ≤ p.radius → p.radius < y1 → y1 < simHeight - p.radius →
        updateParticle temperature p = ⟨p.radius, y1, -p.vx, p.vy, p.radius⟩) ∧
    (p.x ≤ simWidth - p.radius → simWidth - p.radius ≤ x1 →
        p.radius < y1 → y1 < simHeight - p.radius →
        updateParticle temperature p = ⟨simWidth - p.radius, y1, -p.vx, p.vy, p.radius⟩) ∧
    (p.radius ≤ p.y → y1 ≤ p.radius → p.radius < x1 → x1 < simWidth - p.radius →
        updateParticle temperature p = ⟨x1, p.radius, p.vx, -p.vy, p.radius⟩) ∧
    (p.y ≤ simHeight - p.radius → simHeight - p.radius ≤ y1 →
        p.radius < x1 → x1 < simWidth - p.radius →
        updateParticle temperature p = ⟨x1, simHeight - p.radius, p.vx, -p.vy, p.radius⟩) := by
  have hmu : m = 1 + temperature * 2 := by
    rw [hm]; unfold getSpeedMultiplier maxSpeedMultiplier; ring
  have hmpos : 0 < m := by rw [hmu]; linarith
  have hsw : simWidth = 400 := rfl
  have hsh : simHeight = 400 := rfl
  subst hm hx1 hy1
  refine ⟨?_, ?_, ?_, ?_⟩
  · intro h1 h2 h3 h4
    have hvx : p.vx ≤ 0 := by
      by_contra hpos
      push_neg at hpos
      nlinarith
    simp only [updateParticle, if_pos h2, if_neg (not_le.mpr h3), if_neg (not_le.mpr h4)]
    rw [abs_of_nonpos hvx]
  · intro h1 h2 h3 h4
    have hfar : ¬ p.x + p.vx * getSpeedMultiplier temperature ≤ p.radius := by
      rw [hsw] at h2; push_neg; linarith
    have hvx : 0 ≤ p.vx := by
      by_contra hneg
      push_neg at hneg
      nlinarith
    simp only [updateParticle, if_neg hfar, if_pos h2,
      if_neg (not_le.mpr h3), if_neg (not_le.mpr h4)]
    rw [abs_of_nonneg hvx]
  · intro h1 h2 h3 h4
    have hvy : p.vy ≤ 0 := by
      by_contra hpos
      push_neg at hpos
      nlinarith
    simp only [updateParticle, if_neg (not_le.mpr h3), if_neg (not_le.mpr h4), if_pos h2]
    rw [abs_of_nonpos hvy]
  · intro h1 h2 h3 h4
    have hfar : ¬ p.y + p.vy * getSpeedMultiplier temperature ≤ p.radius := by
      rw [hsh] at h2; push_neg; linarith
    have hvy : 0 ≤ p.vy := by
      by_contra hneg
      push_neg at hneg
      nlinarith
    simp only [updateParticle, if_neg (not_le.mpr h3), if_neg (not_le.mpr h4),
      if_neg hfar, if_pos h2]
    rw [abs_of_nonneg hvy]

/-- Witness for C6: the example given in the spec — a body at the left wall with
velocity `(-3, 1)` exits with `(3, 1)`. -/
theorem wall_reflection_witness :
    updateParticle 0 ⟨16, 100, -3, 1, 15⟩ = ⟨15, 101, 3, 1, 15⟩ := by
  have h := (wall_reflection 0 ⟨16, 100, -3, 1, 15⟩ 1 13 101 (by norm_num)
      (by norm_num) (by norm_num [getSpeedMultiplier, maxSpeedMultiplier]) (by norm_num)
      (by norm_num)).1 (by norm_num) (by norm_num) (by norm_num)
      (by norm_num [simHeight])
  rw [h]
  norm_num

/-- C7: on every tick in which the pendulum is not held, `update` advances
the state exactly by the angular dynamics of the spec (semi-implicit Euler with
damping 0.999 and the 0.1 factor), and the bob position used for output is
recomputed from the state as `(pivotX + L·sin(angle), pivotY + L·cos(angle))`
rather than stored. -/
theorem pendulum_tick_matches_spec (sinF cosF : ℚ → ℚ) (dragging : Bool) (p : PendulumState)
    (hd : dragging = false) :
    pendulumUpdate sinF dragging p = specAngularTick sinF p ∧
    calculatePendulumPosition sinF cosF p =
      (pendPivotX + p.length * sinF p.angle, pendPivotY + p.length * cosF p.angle) := by
  subst hd
  exact ⟨rfl, rfl⟩

/-- Witness for C7 at a concrete free-swinging state. -/
theorem pendulum_tick_matches_spec_witness :
    pendulumUpdate (fun q => q) false ⟨1, 2, 200⟩ = specAngularTick (fun q => q) ⟨1, 2, 200⟩ ∧
    calculatePendulumPosition (fun q => q) (fun q => q) ⟨1, 2, 200⟩ =
      (pendPivotX + 200 * 1, pendPivotY + 200 * 1) :=
  pendulum_tick_matches_spec (fun q => q) (fun q => q) false ⟨1, 2, 200⟩ rfl

/-- C8: pressing a controller slider captures the offset between pointer and
handle, and a drag at the same pointer position writes back exactly the value
the channel had at press time, for every value in `[0,127]`. -/
theorem drag_press_round_trip (v mouseY : ℚ) (h0 : 0 ≤ v) (h127 : v ≤ 127) :
    gravityDragValue (mouseY - controllerHandleY v) mouseY = v := by
  unfold gravityDragValue dragNormalized controllerHandleY controllerY controllerHeight
  have key : (1 : ℚ) - (mouseY - (mouseY - (200 + 300 - v / 127 * 300)) - 200) / 300
      = v / 127 := by
    ring
  rw [key]
  have hle : v / 127 ≤ 1 := (div_le_one (show (0 : ℚ) < 127 by norm_num)).mpr h127
  have hge : (0 : ℚ) ≤ v / 127 := by positivity
  rw [min_eq_right hle, max_eq_right hge]
  exact div_mul_cancel₀ v (by norm_num)

/-- Witness for C8 at value `64` and pointer y `350`. -/
theorem drag_press_round_trip_witness :
    (0 : ℚ) ≤ 64 ∧ (64 : ℚ) ≤ 127 ∧
    gravityDragValue (350 - controllerHandleY 64) 350 = 64 :=
  ⟨by norm_num, by norm_num, drag_press_round_trip 64 350 (by norm_num) (by norm_num)⟩

set_option maxRecDepth 2000 in
/-- C9: with `g = 1.0`, starting from `value = 127, velocity = 0`, the
iterated gravity tick reaches the deadzone `|value − 64| ≤ 0.1` at tick 72,
and stays within it (indeed snaps to exactly 64) on every later tick. -/
theorem gravity_converges_to_center :
    |(gravityIter 72).value - 64| ≤ 1 / 10 ∧
    ∀ m, 72 ≤ m → |(gravityIter m).value - 64| ≤ 1 / 10 := by
  have h72 : |(gravityIter 72).value - 64| ≤ 1 / 10 := by decide!
  refine ⟨h72, ?_⟩
  have hstep : ∀ k, |(gravityIter (72 + k)).value - 64| ≤ 1 / 10 := by
    intro k
    induction k with
    | zero => exact h72
    | succ k ih =>
      have hsnap := gravityChannelTick_snap (gravityIter (72 + k)) ih
      show |(gravityChannelTick 1 (gravityIter (72 + k))).value - 64| ≤ 1 / 10
      rw [hsnap]
      show |(64 : ℚ) - 64| ≤ 1 / 10
      norm_num
  intro m hm
  have hsplit : m = 72 + (m - 72) := by omega
  rw [hsplit]
  exact hstep (m - 72)

/-- Witness for the universally quantified part of C9, at tick 100. -/
theorem gravity_converges_to_center_witness :
    |(gravityIter 100).value - 64| ≤ 1 / 10 :=
  gravity_converges_to_center.2 100 (by norm_num)

/-- C1 (code bug): the pendulum honours the Held invariant (`update` leaves
the state untouched while the bob is dragged, fourth conjunct) and a press
never alters the gravity channels (third conjunct, so in particular it does
not zero the velocity), but `GravityModule.update` integrates a controller
that is currently being dragged: with `gravity_strength = 0.5` and controller
0 held at `value = 127, velocity = 0`, one tick moves its value to
`314413/2500 = 125.7652`. -/
theorem held_mode_gravity_code_bug :
    ((gravityUpdate heldGravityState).controllers.getD 0 ⟨0, 0⟩).value = 314413 / 2500 ∧
    (314413 : ℚ) / 2500 ≠ 127 ∧
    (∀ (i : ℕ) (mouseY : ℚ) (st : GravityState),
        (gravityPressController i mouseY st).controllers = st.controllers) ∧
    (∀ (sinF : ℚ → ℚ) (p : PendulumState), pendulumUpdate sinF true p = p) := by
  refine ⟨by decide!, by decide!, fun i mouseY st => rfl, fun sinF p => rfl⟩

end PhysiCCs
